import Mathlib

/-!
Verification of the forecaster-selection compositor
`sktime/forecasting/compose/_transform_select_forecaster.py`
(class TransformSelectForecaster).

The module is shallowly embedded: the Python object state becomes an explicit
record, every stateful method becomes a state-passing function returning the
new state together with an optional raised error, and the Python dicts become
association lists with first-match lookup.  Collaborator objects (forecasters,
transformers) are embedded as records carrying their boolean tag dictionary
and their observable fitted state; their forecast outputs are records of the
model and the arguments it was called with, since the compositor treats those
outputs as opaque values.
-/

set_option autoImplicit false

/-- A univariate time series (the values; the index is irrelevant here). -/
abbrev Series := List Int

/-- A forecasting horizon. -/
abbrev FH := List Int

/-- Lookup in a Python dict embedded as an association list (first match). -/
def dictGet {α : Type} (d : List (String × α)) (k : String) : Option α :=
  match d with
  | [] => none
  | p :: rest => if p.1 = k then some p.2 else dictGet rest k

/-- Assignment `d[k] = v` in a Python dict embedded as an association list:
replace the value at the first occurrence of the key, else append. -/
def dictSet {α : Type} (d : List (String × α)) (k : String) (v : α) :
    List (String × α) :=
  match d with
  | [] => [(k, v)]
  | p :: rest => if p.1 = k then (k, v) :: rest else p :: dictSet rest k v

/-- An sktime forecaster, as observable by the compositor: the identity of its
parameter configuration, whether it is an instance of BaseForecaster, its tag
dictionary as returned by get_tags (boolean-valued capability tags), and its
fitted state (fit data and logged update calls). -/
structure Forecaster where
  fid : Nat
  isBaseForecaster : Bool
  tags : List (String × Bool)
  isFitted : Bool
  fittedOn : Option (Series × Option Series × Option FH)
  updates : List (Series × Option Series × Bool)
  deriving DecidableEq, Repr

/-- Modelled from the spec: the Model collaborator operation clone() (spec section 6),
which returns a fresh model with the same parameters in unfitted prototype state. -/
def Forecaster.clone (f : Forecaster) : Forecaster :=
  { f with isFitted := false, fittedOn := none, updates := [] }

/-- Modelled from the spec: the Model collaborator operation
fit(series, exogenous, horizon) (spec section 6); the model becomes fitted on
the given data. -/
def Forecaster.fitRun (f : Forecaster) (y : Series) (X : Option Series)
    (fh : Option FH) : Forecaster :=
  { f with isFitted := true, fittedOn := some (y, X, fh) }

/-- Modelled from the spec: the Model collaborator operation
update(series, exogenous, update_params) (spec section 6); the call is logged
on the model, its parameter identity and fit data are untouched. -/
def Forecaster.updateRun (f : Forecaster) (y : Series) (X : Option Series)
    (up : Bool) : Forecaster :=
  { f with updates := f.updates ++ [(y, X, up)] }

/-- The value returned by a model's interval-forecast operation, treated by the
compositor as an opaque value determined by the model and its arguments. -/
structure PredIntervalResult where
  model : Forecaster
  fh : FH
  X : Option Series
  coverage : List Rat

/-- The value returned by a model's variance-forecast operation. -/
structure PredVarResult where
  model : Forecaster
  fh : FH
  X : Option Series
  cov : Bool

/-- The value returned by a model's distributional-forecast operation. -/
structure PredProbaResult where
  model : Forecaster
  fh : FH
  X : Option Series
  marginal : Bool

/-- Modelled from the spec: the Model collaborator operation predict_interval
(spec section 6); its return value is whatever the model produces from its
state and the passed arguments. -/
def Forecaster.predictInterval (f : Forecaster) (fh : FH) (X : Option Series)
    (coverage : List Rat) : PredIntervalResult :=
  ⟨f, fh, X, coverage⟩

/-- Modelled from the spec: the Model collaborator operation predict_var. -/
def Forecaster.predictVar (f : Forecaster) (fh : FH) (X : Option Series)
    (cov : Bool) : PredVarResult :=
  ⟨f, fh, X, cov⟩

/-- Modelled from the spec: the Model collaborator operation predict_proba. -/
def Forecaster.predictProba (f : Forecaster) (fh : FH) (X : Option Series)
    (marginal : Bool) : PredProbaResult :=
  ⟨f, fh, X, marginal⟩

/-- A series-to-primitives transformer: the identity of its configuration, the
tabular output its fit_transform produces on given inputs (a list of rows of
category labels; position [0,0] is the first row of the first column), and its
observable fitted state. -/
structure Transformer where
  tid : Nat
  fitTransformOut : Series → Option Series → List (List String)
  isFitted : Bool
  fittedOn : Option (Series × Option Series)

/-- Modelled from the spec: the Classifier collaborator operation clone()
(spec sections 4.2 and 6): same configuration, unfitted. -/
def Transformer.clone (t : Transformer) : Transformer :=
  { t with isFitted := false, fittedOn := none }

/-- Modelled from the spec: the Classifier collaborator operation
fit_transform (spec section 6): fits the transformer on the passed data and
returns its tabular output.  The compositor passes the target series as the
transformer's X argument and the exogenous data as its y argument
(src line 240: fit_transform(X=y, y=X)). -/
def Transformer.fitTransform (t : Transformer) (X : Series) (y : Option Series) :
    Transformer × List (List String) :=
  ({ t with isFitted := true, fittedOn := some (X, y) }, t.fitTransformOut X y)

/-- pandas .iloc[0, 0] on the transformer output: first entry of the first row,
none when the position does not exist (pandas raises an IndexError then). -/
def iloc00 (out : List (List String)) : Option String :=
  match out with
  | [] => none
  | row :: _ => row.head?

/-- The boolean entries of the class-level tag dictionary of
TransformSelectForecaster (src lines 86-96); the non-boolean entries (mtype
strings, authors, index type) play no role in the capability aggregation. -/
def classTagsBool : List (String × Bool) :=
  [("ignores-exogeneous-X", false), ("requires-fh-in-fit", false)]

/-- The keys of the true_if_all_tags dictionary, in insertion order
(src lines 131-139). -/
def trueIfAllKeys : List String :=
  ["ignores-exogeneous-X", "X-y-must-have-same-index", "enforce_index_type",
   "handles-missing-data", "capability:insample", "capability:pred_int",
   "capability:pred_int:insample"]

/-- The keys of the true_if_any_tags dictionary, in insertion order
(src lines 166-169). -/
def anyTagKeys : List String :=
  ["requires-fh-in-fit", "X-y-must-have-same-index"]

/-- The per-forecaster check of the all-required pass (src line 151): a
forecaster fails the flag when the tag is absent from its tag dictionary or
its value is the literal False. -/
def tagTrueish (f : Forecaster) (tag : String) : Bool :=
  match dictGet f.tags tag with
  | none => false
  | some b => b

/-- The all-required aggregation of one tag over the candidate forecasters and
the fallback forecaster (src lines 143-162): true only when no candidate and
not the fallback (when present) fails the per-forecaster check. -/
def trueForAllAgg (fs : List (String × Forecaster)) (fb : Option Forecaster)
    (tag : String) : Bool :=
  fs.all (fun p => tagTrueish p.2 tag) &&
    (match fb with
     | none => true
     | some f => tagTrueish f tag)

/-- The estimator list over which the any-triggers pass runs (src lines
171-175): the candidate forecasters followed by the fallback when present. -/
def estList (fs : List (String × Forecaster)) (fb : Option Forecaster) :
    List Forecaster :=
  fs.map Prod.snd ++
    (match fb with
     | none => []
     | some f => [f])

/-- Modelled from the spec: the aggregation performed by
_anytagis_then_set(tag, True, False, forecasters), inherited from
sktime.base._meta which is not under src/.  Per the spec (section 3,
any-triggers flags), the flag is set to true when it is true for any candidate
or for the fallback, else to false. -/
def anyTriggersAgg (ests : List Forecaster) (tag : String) : Bool :=
  ests.any (fun f => dictGet f.tags tag == some true)

/-- The composite tag dictionary produced by the constructor: the class tags,
then the any-triggers pass (src lines 178-179), then set_tags with the
all-required results (src line 182), each write in the source's key order. -/
def aggTags (fs : List (String × Forecaster)) (fb : Option Forecaster) :
    List (String × Bool) :=
  let t1 := anyTagKeys.foldl
    (fun d tag => dictSet d tag (anyTriggersAgg (estList fs fb) tag)) classTagsBool
  trueIfAllKeys.foldl (fun d tag => dictSet d tag (trueForAllAgg fs fb tag)) t1

/-- The observable state of a TransformSelectForecaster object. -/
structure TSFState where
  forecasters : List (String × Forecaster)
  transformer : Transformer
  fallback_forecaster : Option Forecaster
  transformer_ : Transformer
  forecasters_ : List (String × Forecaster)
  tags : List (String × Bool)
  predIntAttached : Bool
  category_ : Option String
  chosen_forecaster_ : Option Forecaster
  is_fitted : Bool

/-- The dictionary of clones of the candidate forecasters (src line 125). -/
def cloneDict (fs : List (String × Forecaster)) : List (String × Forecaster) :=
  fs.map (fun p => (p.1, Forecaster.clone p.2))

/-- Modelled from the spec: the default Classifier used when none is passed
(spec section 6 - a built-in categorical-classification transform emitting a
single class feature); ADICVTransformer lives outside src/, so its concrete
classification function is left as a fixed single-label output. -/
def defaultADICV : Transformer :=
  { tid := 0, fitTransformOut := fun _ _ => [["smooth"]],
    isFitted := false, fittedOn := none }

/-- The error raised when construction fails. -/
inductive ConstructError
  | assertionError
  deriving DecidableEq, Repr

/-- The state built by a successful run of the constructor (src lines
100-189): parameters stored as passed, the transformer and every candidate
cloned, the aggregated tag dictionary written, and the probabilistic methods
attached exactly when the aggregated capability:pred_int tag is true
(src lines 184-189). -/
def mkTSFok (fs : List (String × Forecaster)) (tr : Transformer)
    (fb : Option Forecaster) : TSFState :=
  let tags := aggTags fs fb
  { forecasters := fs
    transformer := tr
    fallback_forecaster := fb
    transformer_ := tr.clone
    forecasters_ := cloneDict fs
    tags := tags
    predIntAttached := dictGet tags "capability:pred_int" == some true
    category_ := none
    chosen_forecaster_ := none
    is_fitted := false }

/-- The constructor __init__ (src lines 100-189): asserts that every value of
the forecasters mapping is a BaseForecaster instance (src lines 122-123),
failing with an AssertionError otherwise; a missing transformer defaults to
the ADICV classification transform (src lines 113-118). -/
def mkTSF (fs : List (String × Forecaster)) (tropt : Option Transformer)
    (fb : Option Forecaster) : Except ConstructError TSFState :=
  if fs.all (fun p => p.2.isBaseForecaster) then
    Except.ok (mkTSFok fs (tropt.getD defaultADICV) fb)
  else
    Except.error ConstructError.assertionError

/-- The Python errors a method call can raise. -/
inductive PyErr
  | valueError (msg : String)
  | indexError
  | keyError
  | attributeError
  deriving DecidableEq, Repr

/-- The message of the ValueError raised by _fit (src lines 245-249): three
concatenated pieces, the observed category interpolated into the middle one. -/
def fitErrMsg (cat : String) : String :=
  "Forecaster not provided for given" ++ ("time series of type " ++ cat) ++
    "and no fallback forecaster provided to use for this case."

/-- The method _fit (src lines 199-261): runs fit_transform of the stored
transformer clone on the data, stores the label at position [0,0] of the
output in category_, then either clones and fits the matching candidate clone
from forecasters_, or clones and fits the fallback, or raises a ValueError
carrying the observed label.  Returns the state at method exit together with
the raised error, if any. -/
def TSFState.fitInner (s : TSFState) (y : Series) (X : Option Series)
    (fh : Option FH) : TSFState × Option PyErr :=
  let pr := s.transformer_.fitTransform y X
  match iloc00 pr.2 with
  | none => ({ s with transformer_ := pr.1 }, some PyErr.indexError)
  | some cat =>
    let s1 := { s with transformer_ := pr.1, category_ := some cat }
    match dictGet s1.forecasters cat with
    | none =>
      match s1.fallback_forecaster with
      | none => (s1, some (PyErr.valueError (fitErrMsg cat)))
      | some fbf =>
        ({ s1 with
            chosen_forecaster_ := some ((Forecaster.clone fbf).fitRun y X fh) },
          none)
    | some _ =>
      match dictGet s1.forecasters_ cat with
      | none => (s1, some PyErr.keyError)
      | some pf =>
        ({ s1 with
            chosen_forecaster_ := some ((Forecaster.clone pf).fitRun y X fh) },
          none)

/-- Modelled from the spec: the surrounding framework's fit entry point (not
under src/), which calls _fit and marks the composite fitted on success; a
failed _fit propagates its error and the fitted flag keeps its prior value
(spec sections 4.4 and 7). -/
def TSFState.fit (s : TSFState) (y : Series) (X : Option Series)
    (fh : Option FH) : TSFState × Option PyErr :=
  match s.fitInner y X fh with
  | (s1, none) => ({ s1 with is_fitted := true }, none)
  | (s1, some e) => (s1, some e)

/-- The method _update (src lines 296-333): forwards to the update operation
of the chosen forecaster, touching nothing else; with no chosen forecaster the
attribute access raises. -/
def TSFState.update (s : TSFState) (y : Series) (X : Option Series)
    (up : Bool) : TSFState × Option PyErr :=
  match s.chosen_forecaster_ with
  | none => (s, some PyErr.attributeError)
  | some f =>
    ({ s with chosen_forecaster_ := some (f.updateRun y X up) }, none)

/-- Outcome of calling predict_interval on the composite. -/
inductive PIOut
  | ok (r : PredIntervalResult)
  | unsupportedOperation
  | notFitted

/-- Outcome of calling predict_var on the composite. -/
inductive PVOut
  | ok (r : PredVarResult)
  | unsupportedOperation
  | notFitted

/-- Outcome of calling predict_proba on the composite. -/
inductive PPOut
  | ok (r : PredProbaResult)
  | unsupportedOperation
  | notFitted

/-- Modelled from the spec: the framework entry point predict_interval (not
under src/) fails with an UnsupportedOperation error when the interval
capability was not attached at construction (spec sections 4.1 and 4.4) and
with a NotFittedError when no model has been fitted; when attached, the body
is the dynamically bound _predict_interval of src lines 427-466, which
forwards to the chosen forecaster passing coverage through unchanged. -/
def TSFState.predictInterval (s : TSFState) (fh : FH) (X : Option Series)
    (coverage : List Rat) : PIOut :=
  if s.predIntAttached then
    match s.chosen_forecaster_ with
    | some f => PIOut.ok (f.predictInterval fh X coverage)
    | none => PIOut.notFitted
  else PIOut.unsupportedOperation

/-- Modelled from the spec: same gating for predict_var; when attached, the
body is _predict_var of src lines 469-506. -/
def TSFState.predictVar (s : TSFState) (fh : FH) (X : Option Series)
    (cov : Bool) : PVOut :=
  if s.predIntAttached then
    match s.chosen_forecaster_ with
    | some f => PVOut.ok (f.predictVar fh X cov)
    | none => PVOut.notFitted
  else PVOut.unsupportedOperation

/-- Modelled from the spec: same gating for predict_proba; when attached, the
body is _predict_proba of src lines 509-534. -/
def TSFState.predictProba (s : TSFState) (fh : FH) (X : Option Series)
    (marginal : Bool) : PPOut :=
  if s.predIntAttached then
    match s.chosen_forecaster_ with
    | some f => PPOut.ok (f.predictProba fh X marginal)
    | none => PPOut.notFitted
  else PPOut.unsupportedOperation

/-- The _forecasters property getter (src lines 388-404): the candidate
(label, forecaster) pairs followed by one final entry holding the fallback
under the reserved label. -/
def TSFState.forecastersProp (s : TSFState) :
    List (String × Option Forecaster) :=
  s.forecasters.map (fun p => (p.1, some p.2)) ++
    [("fallback_forecaster", s.fallback_forecaster)]

/-- The _forecasters property setter (src lines 406-422): each entry whose
label differs from the reserved string is written into the candidate mapping,
each entry with the reserved label replaces the fallback. -/
def TSFState.setForecastersProp (s : TSFState)
    (new : List (String × Forecaster)) : TSFState :=
  new.foldl
    (fun st p =>
      if p.1 ≠ "fallback_forecaster" then
        { st with forecasters := dictSet st.forecasters p.1 p.2 }
      else
        { st with fallback_forecaster := some p.2 })
    s

theorem dictGet_dictSet_self {α : Type} (d : List (String × α)) (k : String)
    (v : α) : dictGet (dictSet d k v) k = some v := by
  induction d with
  | nil => simp [dictGet, dictSet]
  | cons p rest ih =>
    by_cases h : p.1 = k
    · simp [dictSet, dictGet, h]
    · simp [dictSet, dictGet, h, ih]

theorem dictGet_dictSet_ne {α : Type} (d : List (String × α)) (k t : String)
    (v : α) (h : k ≠ t) : dictGet (dictSet d t v) k = dictGet d k := by
  induction d with
  | nil => simp [dictGet, dictSet, Ne.symm h]
  | cons p rest ih =>
    by_cases hp : p.1 = t
    · simp [dictSet, dictGet, hp, Ne.symm h]
    · simp [dictSet, dictGet, hp, ih]

theorem dictGet_foldlSet_notMem {α : Type} (keys : List String)
    (f : String → α) (d : List (String × α)) (k : String) (hk : k ∉ keys) :
    dictGet (keys.foldl (fun d t => dictSet d t (f t)) d) k = dictGet d k := by
  induction keys generalizing d with
  | nil => rfl
  | cons t rest ih =>
    have hkt : k ≠ t := by
      intro h
      exact hk (by simp [h])
    have hrest : k ∉ rest := fun h => hk (List.mem_cons_of_mem _ h)
    simp only [List.foldl_cons]
    rw [ih _ hrest, dictGet_dictSet_ne _ _ _ _ hkt]

theorem dictGet_foldlSet_mem {α : Type} (keys : List String)
    (f : String → α) (d : List (String × α)) (k : String) (hk : k ∈ keys) :
    dictGet (keys.foldl (fun d t => dictSet d t (f t)) d) k = some (f k) := by
  induction keys generalizing d with
  | nil => cases hk
  | cons t rest ih =>
    simp only [List.foldl_cons]
    by_cases hr : k ∈ rest
    · exact ih _ hr
    · have hkt : k = t := by
        rcases List.mem_cons.mp hk with h | h
        · exact h
        · exact absurd h hr
      subst hkt
      rw [dictGet_foldlSet_notMem _ _ _ _ hr, dictGet_dictSet_self]

theorem dictGet_cloneDict (fs : List (String × Forecaster)) (k : String) :
    dictGet (cloneDict fs) k = (dictGet fs k).map Forecaster.clone := by
  induction fs with
  | nil => rfl
  | cons p rest ih =>
    by_cases h : p.1 = k <;>
      · simp only [cloneDict, List.map_cons, dictGet, h, if_true, if_false,
          reduceIte, Option.map_some, Option.map_none]
        first
        | rfl
        | simpa [cloneDict] using ih

theorem Forecaster.clone_clone (f : Forecaster) :
    Forecaster.clone (Forecaster.clone f) = Forecaster.clone f := rfl

theorem mkTSF_ok_eq (fs : List (String × Forecaster))
    (tropt : Option Transformer) (fb : Option Forecaster) (s : TSFState)
    (h : mkTSF fs tropt fb = Except.ok s) :
    s = mkTSFok fs (tropt.getD defaultADICV) fb := by
  unfold mkTSF at h
  split at h
  · injection h with h2
    exact h2.symm
  · simp at h

theorem aggTags_allKey (fs : List (String × Forecaster))
    (fb : Option Forecaster) (tag : String) (h : tag ∈ trueIfAllKeys) :
    dictGet (aggTags fs fb) tag = some (trueForAllAgg fs fb tag) := by
  unfold aggTags
  exact dictGet_foldlSet_mem _ _ _ _ h

theorem aggTags_rfif (fs : List (String × Forecaster)) (fb : Option Forecaster) :
    dictGet (aggTags fs fb) "requires-fh-in-fit" =
      some (anyTriggersAgg (estList fs fb) "requires-fh-in-fit") := by
  unfold aggTags
  rw [dictGet_foldlSet_notMem _ _ _ _ (by decide)]
  exact dictGet_foldlSet_mem _ _ _ _ (by decide)

theorem fit_spec_found (s : TSFState) (y : Series) (X : Option Series)
    (fh : Option FH) (cat : String) (p pf : Forecaster)
    (hcat : iloc00 (s.transformer_.fitTransformOut y X) = some cat)
    (hp : dictGet s.forecasters cat = some p)
    (hpf : dictGet s.forecasters_ cat = some pf) :
    s.fit y X fh =
      ({ s with transformer_ := (s.transformer_.fitTransform y X).1,
                category_ := some cat,
                chosen_forecaster_ := some ((Forecaster.clone pf).fitRun y X fh),
                is_fitted := true }, none) := by
  unfold TSFState.fit TSFState.fitInner
  simp only [Transformer.fitTransform, hcat, hp, hpf]

theorem fit_spec_fallback (s : TSFState) (y : Series) (X : Option Series)
    (fh : Option FH) (cat : String) (fbf : Forecaster)
    (hcat : iloc00 (s.transformer_.fitTransformOut y X) = some cat)
    (hp : dictGet s.forecasters cat = none)
    (hfb : s.fallback_forecaster = some fbf) :
    s.fit y X fh =
      ({ s with transformer_ := (s.transformer_.fitTransform y X).1,
                category_ := some cat,
                chosen_forecaster_ := some ((Forecaster.clone fbf).fitRun y X fh),
                is_fitted := true }, none) := by
  unfold TSFState.fit TSFState.fitInner
  simp only [Transformer.fitTransform, hcat, hp, hfb]

theorem fit_spec_missing (s : TSFState) (y : Series) (X : Option Series)
    (fh : Option FH) (cat : String)
    (hcat : iloc00 (s.transformer_.fitTransformOut y X) = some cat)
    (hp : dictGet s.forecasters cat = none)
    (hfb : s.fallback_forecaster = none) :
    s.fit y X fh =
      ({ s with transformer_ := (s.transformer_.fitTransform y X).1,
                category_ := some cat },
        some (PyErr.valueError (fitErrMsg cat))) := by
  unfold TSFState.fit TSFState.fitInner
  simp only [Transformer.fitTransform, hcat, hp, hfb]

theorem fit_spec_indexError (s : TSFState) (y : Series) (X : Option Series)
    (fh : Option FH)
    (hcat : iloc00 (s.transformer_.fitTransformOut y X) = none) :
    s.fit y X fh =
      ({ s with transformer_ := (s.transformer_.fitTransform y X).1 },
        some PyErr.indexError) := by
  unfold TSFState.fit TSFState.fitInner
  simp only [Transformer.fitTransform, hcat]

theorem fit_spec_keyError (s : TSFState) (y : Series) (X : Option Series)
    (fh : Option FH) (cat : String) (p : Forecaster)
    (hcat : iloc00 (s.transformer_.fitTransformOut y X) = some cat)
    (hp : dictGet s.forecasters cat = some p)
    (hpf : dictGet s.forecasters_ cat = none) :
    s.fit y X fh =
      ({ s with transformer_ := (s.transformer_.fitTransform y X).1,
                category_ := some cat },
        some PyErr.keyError) := by
  unfold TSFState.fit TSFState.fitInner
  simp only [Transformer.fitTransform, hcat, hp, hpf]

/-- C1: if the label read from position [0,0] of the transformer's
fit_transform output is a key of the forecasters mapping, fit succeeds and
the active model chosen_forecaster_ is a fresh clone of the forecaster
registered under that key; if it is not a key and a fallback forecaster is
present, the active model is a fresh clone of the fallback; in both cases the
clone is the one fitted while the stored prototypes stay untouched. -/
theorem fit_routing_correct (fs : List (String × Forecaster))
    (tropt : Option Transformer) (fb : Option Forecaster) (s0 s' : TSFState)
    (e : Option PyErr) (y : Series) (X : Option Series) (fh : Option FH)
    (cat : String)
    (h0 : mkTSF fs tropt fb = Except.ok s0)
    (hcat : iloc00 (s0.transformer_.fitTransformOut y X) = some cat)
    (hrun : s0.fit y X fh = (s', e)) :
    (∀ p : Forecaster, dictGet fs cat = some p →
      e = none ∧ s'.is_fitted = true ∧
      s'.chosen_forecaster_ = some ((Forecaster.clone p).fitRun y X fh) ∧
      (Forecaster.clone p).isFitted = false ∧
      s'.forecasters = fs ∧ s'.forecasters_ = cloneDict fs ∧
      s'.fallback_forecaster = fb) ∧
    (dictGet fs cat = none → ∀ fbf : Forecaster, fb = some fbf →
      e = none ∧ s'.is_fitted = true ∧
      s'.chosen_forecaster_ = some ((Forecaster.clone fbf).fitRun y X fh) ∧
      (Forecaster.clone fbf).isFitted = false ∧
      s'.forecasters = fs ∧ s'.forecasters_ = cloneDict fs ∧
      s'.fallback_forecaster = fb) := by
  have hs0 := mkTSF_ok_eq fs tropt fb s0 h0
  subst hs0
  constructor
  · intro p hp
    have hp' : dictGet (mkTSFok fs (tropt.getD defaultADICV) fb).forecasters
        cat = some p := by
      simpa [mkTSFok] using hp
    have hpf : dictGet (mkTSFok fs (tropt.getD defaultADICV) fb).forecasters_
        cat = some (Forecaster.clone p) := by
      simp [mkTSFok, dictGet_cloneDict, hp]
    rw [fit_spec_found _ y X fh cat p (Forecaster.clone p) hcat hp' hpf]
      at hrun
    injection hrun with h1 h2
    subst h1
    refine ⟨h2.symm, rfl, ?_, rfl, ?_, ?_, ?_⟩
    · simp [Forecaster.clone_clone]
    · simp [mkTSFok]
    · simp [mkTSFok]
    · simp [mkTSFok]
  · intro hp fbf hfb
    subst hfb
    have hp' : dictGet (mkTSFok fs (tropt.getD defaultADICV)
        (some fbf)).forecasters cat = none := by
      simpa [mkTSFok] using hp
    have hfb' : (mkTSFok fs (tropt.getD defaultADICV)
        (some fbf)).fallback_forecaster = some fbf := by
      simp [mkTSFok]
    rw [fit_spec_fallback _ y X fh cat fbf hcat hp' hfb'] at hrun
    injection hrun with h1 h2
    subst h1
    refine ⟨h2.symm, rfl, rfl, rfl, ?_, ?_, ?_⟩
    · simp [mkTSFok]
    · simp [mkTSFok]
    · simp [mkTSFok]

/-- C2: when the observed category is not a key of the forecasters mapping
and no fallback forecaster is configured, fit raises a ValueError whose
message carries the observed label (in particular this happens for any
observed label when the mapping is empty). -/
theorem fit_missing_raises (fs : List (String × Forecaster))
    (tropt : Option Transformer) (fb : Option Forecaster) (s0 s' : TSFState)
    (e : Option PyErr) (y : Series) (X : Option Series) (fh : Option FH)
    (cat : String)
    (h0 : mkTSF fs tropt fb = Except.ok s0)
    (hcat : iloc00 (s0.transformer_.fitTransformOut y X) = some cat)
    (hmiss : dictGet fs cat = none)
    (hfb : fb = none)
    (hrun : s0.fit y X fh = (s', e)) :
    e = some (PyErr.valueError (fitErrMsg cat)) ∧
    fitErrMsg cat =
      "Forecaster not provided for giventime series of type " ++ cat ++
        "and no fallback forecaster provided to use for this case." := by
  have hs0 := mkTSF_ok_eq fs tropt fb s0 h0
  subst hs0 hfb
  have hp' : dictGet (mkTSFok fs (tropt.getD defaultADICV)
      none).forecasters cat = none := by
    simpa [mkTSFok] using hmiss
  have hfb' : (mkTSFok fs (tropt.getD defaultADICV)
      none).fallback_forecaster = none := by
    simp [mkTSFok]
  rw [fit_spec_missing _ y X fh cat hcat hp' hfb'] at hrun
  injection hrun with h1 h2
  constructor
  · exact h2.symm
  · show ("Forecaster not provided for given" ++
        ("time series of type " ++ cat)) ++
        "and no fallback forecaster provided to use for this case." = _
    rw [← String.append_assoc]
    rfl

/-- A concrete transformer emitting one fixed label, for concrete runs. -/
def wTransA : Transformer :=
  { tid := 1, fitTransformOut := fun _ _ => [["erratic"]],
    isFitted := false, fittedOn := none }

/-- A concrete candidate forecaster, for concrete runs. -/
def wForeA : Forecaster :=
  { fid := 5, isBaseForecaster := true,
    tags := [("capability:pred_int", true)],
    isFitted := false, fittedOn := none, updates := [] }

theorem fit_routing_correct_witness :
    ((mkTSFok [("erratic", wForeA)] wTransA none).fit [1] none none).2 =
      none ∧
    ((mkTSFok [("erratic", wForeA)] wTransA none).fit [1] none
        none).1.chosen_forecaster_ =
      some ((Forecaster.clone wForeA).fitRun [1] none none) := by
  have h := fit_routing_correct [("erratic", wForeA)] (some wTransA) none
    (mkTSFok [("erratic", wForeA)] wTransA none)
    ((mkTSFok [("erratic", wForeA)] wTransA none).fit [1] none none).1
    ((mkTSFok [("erratic", wForeA)] wTransA none).fit [1] none none).2
    [1] none none "erratic" rfl rfl rfl
  have h2 := h.1 wForeA rfl
  exact ⟨h2.1, h2.2.2.1⟩

theorem fit_missing_raises_witness :
    ((mkTSFok [] wTransA none).fit [1] none none).2 =
      some (PyErr.valueError (fitErrMsg "erratic")) := by
  have h := fit_missing_raises [] (some wTransA) none
    (mkTSFok [] wTransA none)
    ((mkTSFok [] wTransA none).fit [1] none none).1
    ((mkTSFok [] wTransA none).fit [1] none none).2
    [1] none none "erratic" rfl rfl rfl rfl rfl
  exact h.1

/-- C5 (amended): a failed fit leaves the active model, the fitted flag, the
stored forecasters, their clones, the fallback and the tags unchanged, but
when a label was observed before the error was raised, category_ has already
been overwritten with that label (and the transformer clone re-fitted). -/
theorem fit_fail_frame (s : TSFState) (y : Series) (X : Option Series)
    (fh : Option FH) (s' : TSFState) (err : PyErr)
    (hrun : s.fit y X fh = (s', some err)) :
    s'.chosen_forecaster_ = s.chosen_forecaster_ ∧
    s'.is_fitted = s.is_fitted ∧
    s'.forecasters = s.forecasters ∧
    s'.forecasters_ = s.forecasters_ ∧
    s'.fallback_forecaster = s.fallback_forecaster ∧
    s'.tags = s.tags ∧
    s'.predIntAttached = s.predIntAttached ∧
    s'.category_ = (match iloc00 (s.transformer_.fitTransformOut y X) with
                    | some cat => some cat
                    | none => s.category_) := by
  rcases hout : iloc00 (s.transformer_.fitTransformOut y X) with _ | cat
  · rw [fit_spec_indexError s y X fh hout] at hrun
    injection hrun with h1 h2
    subst h1
    simp [hout]
  · rcases hp : dictGet s.forecasters cat with _ | p
    · rcases hfb : s.fallback_forecaster with _ | fbf
      · rw [fit_spec_missing s y X fh cat hout hp hfb] at hrun
        injection hrun with h1 h2
        subst h1
        simp [hout, hfb]
      · rw [fit_spec_fallback s y X fh cat fbf hout hp hfb] at hrun
        injection hrun with h1 h2
        cases h2
    · rcases hpf : dictGet s.forecasters_ cat with _ | pf
      · rw [fit_spec_keyError s y X fh cat p hout hp hpf] at hrun
        injection hrun with h1 h2
        subst h1
        simp [hout]
      · rw [fit_spec_found s y X fh cat p pf hout hp hpf] at hrun
        injection hrun with h1 h2
        cases h2

/-- A transformer classifying the series [1] as "a" and anything else as
"b", exhibiting a failed re-fit that overwrites category_. -/
def cexTrans : Transformer :=
  { tid := 2, fitTransformOut := fun y _ => [[if y = [1] then "a" else "b"]],
    isFitted := false, fittedOn := none }

theorem fit_fail_overwrites_category :
    (((mkTSFok [("a", wForeA)] cexTrans none).fit [1] none
          none).1.fit [2] none none).2.isSome = true ∧
    ¬((((mkTSFok [("a", wForeA)] cexTrans none).fit [1] none
          none).1.fit [2] none none).1.category_ =
        ((mkTSFok [("a", wForeA)] cexTrans none).fit [1] none
          none).1.category_) := by
  decide

theorem fit_fail_frame_witness :
    (((mkTSFok [("a", wForeA)] cexTrans none).fit [1] none
        none).1.fit [2] none none).1.chosen_forecaster_ =
      ((mkTSFok [("a", wForeA)] cexTrans none).fit [1] none
        none).1.chosen_forecaster_ := by
  have h := fit_fail_frame
    (((mkTSFok [("a", wForeA)] cexTrans none).fit [1] none none).1)
    [2] none none
    ((((mkTSFok [("a", wForeA)] cexTrans none).fit [1] none
        none).1.fit [2] none none).1)
    (PyErr.valueError (fitErrMsg "b")) rfl
  exact h.1

/-- C6: update in the fitted state forwards only to the active model's update
operation; the transformer is not re-run, the routing decision is not
re-evaluated: category_, the stored mappings and the identity and fit data of
the chosen forecaster are unchanged, for any new data. -/
theorem update_frame (s : TSFState) (f : Forecaster) (y : Series)
    (X : Option Series) (up : Bool) (s' : TSFState) (e : Option PyErr)
    (hch : s.chosen_forecaster_ = some f)
    (hrun : s.update y X up = (s', e)) :
    e = none ∧
    s'.category_ = s.category_ ∧
    s'.transformer_ = s.transformer_ ∧
    s'.forecasters = s.forecasters ∧
    s'.forecasters_ = s.forecasters_ ∧
    s'.fallback_forecaster = s.fallback_forecaster ∧
    s'.is_fitted = s.is_fitted ∧
    s'.tags = s.tags ∧
    s'.chosen_forecaster_ = some (f.updateRun y X up) ∧
    (f.updateRun y X up).fid = f.fid ∧
    (f.updateRun y X up).fittedOn = f.fittedOn ∧
    (f.updateRun y X up).isFitted = f.isFitted := by
  simp only [TSFState.update, hch] at hrun
  injection hrun with h1 h2
  subst h1
  refine ⟨h2.symm, rfl, rfl, rfl, rfl, rfl, rfl, rfl, rfl, rfl, rfl, rfl⟩

theorem update_frame_witness :
    ((((mkTSFok [("erratic", wForeA)] wTransA none).fit [1] none
        none).1).update [7] none true).1.category_ =
      (((mkTSFok [("erratic", wForeA)] wTransA none).fit [1] none
        none).1).category_ := by
  have h := update_frame
    (((mkTSFok [("erratic", wForeA)] wTransA none).fit [1] none none).1)
    ((Forecaster.clone wForeA).fitRun [1] none none) [7] none true
    ((((mkTSFok [("erratic", wForeA)] wTransA none).fit [1] none
        none).1).update [7] none true).1
    ((((mkTSFok [("erratic", wForeA)] wTransA none).fit [1] none
        none).1).update [7] none true).2
    rfl rfl
  exact h.2.1

theorem tagTrueish_eq_true (f : Forecaster) (tag : String) :
    tagTrueish f tag = true ↔ dictGet f.tags tag = some true := by
  unfold tagTrueish
  rcases h : dictGet f.tags tag with _ | b <;> simp

theorem anyTriggersAgg_eq_true (fs : List (String × Forecaster))
    (fb : Option Forecaster) (tag : String) :
    anyTriggersAgg (estList fs fb) tag = true ↔
      (∃ p ∈ fs, dictGet p.2.tags tag = some true) ∨
      ∃ f : Forecaster, fb = some f ∧ dictGet f.tags tag = some true := by
  unfold anyTriggersAgg estList
  rcases fb with _ | f0
  · simp only [List.any_eq_true, List.append_nil, List.mem_map, beq_iff_eq]
    constructor
    · rintro ⟨x, ⟨p, hp, rfl⟩, hx⟩
      exact Or.inl ⟨p, hp, hx⟩
    · rintro (⟨p, hp, hx⟩ | ⟨f, hf, _⟩)
      · exact ⟨p.2, ⟨p, hp, rfl⟩, hx⟩
      · cases hf
  · simp only [List.any_eq_true, List.mem_append, List.mem_map,
      List.mem_singleton, beq_iff_eq]
    constructor
    · rintro ⟨x, hx, hxt⟩
      rcases hx with ⟨p, hp, rfl⟩ | rfl
      · exact Or.inl ⟨p, hp, hxt⟩
      · exact Or.inr ⟨x, rfl, hxt⟩
    · rintro (⟨p, hp, hx⟩ | ⟨f, hf, hx⟩)
      · exact ⟨p.2, Or.inl ⟨p, hp, rfl⟩, hx⟩
      · cases hf
        exact ⟨f0, Or.inr rfl, hx⟩

/-- A transformer with empty output, for constructions whose classification
is never exercised. -/
def trivialTransformer : Transformer :=
  { tid := 100, fitTransformOut := fun _ _ => [],
    isFitted := false, fittedOn := none }

/-- C3: for every all-required capability flag, the aggregated composite flag
is true exactly when the flag is true for every candidate forecaster and for
the fallback forecaster when one is present; over an empty candidate set the
candidate part is vacuously true. -/
theorem allRequired_agg_iff (fs : List (String × Forecaster))
    (tr : Transformer) (fb : Option Forecaster) (tag : String)
    (htag : tag ∈ trueIfAllKeys) :
    dictGet (mkTSFok fs tr fb).tags tag = some true ↔
      ((∀ p ∈ fs, dictGet p.2.tags tag = some true) ∧
       ∀ f : Forecaster, fb = some f → dictGet f.tags tag = some true) := by
  have htags : (mkTSFok fs tr fb).tags = aggTags fs fb := by
    simp [mkTSFok]
  rw [htags, aggTags_allKey fs fb tag htag]
  rcases fb with _ | f0 <;>
    simp [trueForAllAgg, List.all_eq_true, tagTrueish_eq_true]

/-- A fallback forecaster whose handles-missing-data tag is true. -/
def fbHMD : Forecaster :=
  { fid := 11, isBaseForecaster := true,
    tags := [("handles-missing-data", true)],
    isFitted := false, fittedOn := none, updates := [] }

theorem allRequired_agg_iff_witness :
    dictGet (mkTSFok [] trivialTransformer (some fbHMD)).tags
      "handles-missing-data" = some true := by
  refine (allRequired_agg_iff [] trivialTransformer (some fbHMD)
    "handles-missing-data" (by decide)).mpr ⟨?_, ?_⟩
  · intro p hp
    cases hp
  · intro f hf
    cases hf
    rfl

/-- C7: the aggregated requires-fh-in-fit flag of the composite is true
exactly when the flag is true for at least one candidate forecaster or for
the fallback forecaster when one is present, and false when it is false for
all of them. -/
theorem anyTriggers_agg_rfif (fs : List (String × Forecaster))
    (tr : Transformer) (fb : Option Forecaster) :
    dictGet (mkTSFok fs tr fb).tags "requires-fh-in-fit" =
      some (anyTriggersAgg (estList fs fb) "requires-fh-in-fit") ∧
    (dictGet (mkTSFok fs tr fb).tags "requires-fh-in-fit" = some true ↔
      (∃ p ∈ fs, dictGet p.2.tags "requires-fh-in-fit" = some true) ∨
      ∃ f : Forecaster, fb = some f ∧
        dictGet f.tags "requires-fh-in-fit" = some true) := by
  have htags : (mkTSFok fs tr fb).tags = aggTags fs fb := by
    simp [mkTSFok]
  constructor
  · rw [htags, aggTags_rfif fs fb]
  · rw [htags, aggTags_rfif fs fb]
    simp only [Option.some.injEq]
    exact anyTriggersAgg_eq_true fs fb "requires-fh-in-fit"

/-- A forecaster whose X-y-must-have-same-index tag is true. -/
def fXyTrue : Forecaster :=
  { fid := 12, isBaseForecaster := true,
    tags := [("X-y-must-have-same-index", true)],
    isFitted := false, fittedOn := none, updates := [] }

/-- A forecaster whose X-y-must-have-same-index tag is false. -/
def fXyFalse : Forecaster :=
  { fid := 13, isBaseForecaster := true,
    tags := [("X-y-must-have-same-index", false)],
    isFitted := false, fittedOn := none, updates := [] }

/-- C9: the final aggregated value of the X-y-must-have-same-index tag always
equals the all-required (conjunction) aggregation over candidates and
fallback, because set_tags writes the all-required result after the
any-triggers pass ran; concretely, for two candidates with values true and
false the any-triggers rule would give true, yet the final flag is false. -/
theorem xySameIndex_final_allRequired (fs : List (String × Forecaster))
    (tr : Transformer) (fb : Option Forecaster) :
    dictGet (mkTSFok fs tr fb).tags "X-y-must-have-same-index" =
      some (trueForAllAgg fs fb "X-y-must-have-same-index") ∧
    anyTriggersAgg (estList [("a", fXyTrue), ("b", fXyFalse)] none)
      "X-y-must-have-same-index" = true ∧
    dictGet (mkTSFok [("a", fXyTrue), ("b", fXyFalse)] tr none).tags
      "X-y-must-have-same-index" = some false := by
  have htags : (mkTSFok fs tr fb).tags = aggTags fs fb := by
    simp [mkTSFok]
  have htags2 : (mkTSFok [("a", fXyTrue), ("b", fXyFalse)] tr none).tags =
      aggTags [("a", fXyTrue), ("b", fXyFalse)] none := by
    simp [mkTSFok]
  refine ⟨?_, by decide, ?_⟩
  · rw [htags]
    exact aggTags_allKey fs fb _ (by decide)
  · rw [htags2, aggTags_allKey _ _ _ (by decide)]
    decide

theorem fit_preserves_predIntAttached (s : TSFState) (y : Series)
    (X : Option Series) (fh : Option FH) :
    ((s.fit y X fh).1).predIntAttached = s.predIntAttached := by
  rcases hout : iloc00 (s.transformer_.fitTransformOut y X) with _ | cat
  · rw [fit_spec_indexError s y X fh hout]
  · rcases hp : dictGet s.forecasters cat with _ | p
    · rcases hfb : s.fallback_forecaster with _ | fbf
      · rw [fit_spec_missing s y X fh cat hout hp hfb]
      · rw [fit_spec_fallback s y X fh cat fbf hout hp hfb]
    · rcases hpf : dictGet s.forecasters_ cat with _ | pf
      · rw [fit_spec_keyError s y X fh cat p hout hp hpf]
      · rw [fit_spec_found s y X fh cat p pf hout hp hpf]

/-- C4: the probabilistic operations are attached at construction exactly
when the aggregated capability:pred_int tag is true (and fitting preserves
the attachment); with the methods attached, in the fitted state each of the
interval-, variance- and distribution-forecast operations forwards to the
active model's corresponding operation, passing the coverage levels through
unchanged and returning the model's result without reshaping; when the flag
is false, all three operations fail with an UnsupportedOperation error. -/
theorem predInt_gating (fs : List (String × Forecaster)) (tr : Transformer)
    (fb : Option Forecaster) (s' : TSFState) (f : Forecaster) (fh : FH)
    (X : Option Series) (cov : List Rat) (cvb mg : Bool) :
    ((mkTSFok fs tr fb).predIntAttached = true ↔
      dictGet (mkTSFok fs tr fb).tags "capability:pred_int" = some true) ∧
    (∀ (s : TSFState) (y : Series) (X0 : Option Series) (fh0 : Option FH),
      ((s.fit y X0 fh0).1).predIntAttached = s.predIntAttached) ∧
    (s'.predIntAttached = true → s'.chosen_forecaster_ = some f →
      s'.predictInterval fh X cov = PIOut.ok (f.predictInterval fh X cov) ∧
      (f.predictInterval fh X cov).coverage = cov ∧
      s'.predictVar fh X cvb = PVOut.ok (f.predictVar fh X cvb) ∧
      s'.predictProba fh X mg = PPOut.ok (f.predictProba fh X mg)) ∧
    (s'.predIntAttached = false →
      s'.predictInterval fh X cov = PIOut.unsupportedOperation ∧
      s'.predictVar fh X cvb = PVOut.unsupportedOperation ∧
      s'.predictProba fh X mg = PPOut.unsupportedOperation) := by
  refine ⟨?_, fit_preserves_predIntAttached, ?_, ?_⟩
  · simp [mkTSFok]
  · intro hatt hch
    refine ⟨?_, rfl, ?_, ?_⟩ <;>
      simp [TSFState.predictInterval, TSFState.predictVar,
        TSFState.predictProba, hatt, hch]
  · intro hatt
    refine ⟨?_, ?_, ?_⟩ <;>
      simp [TSFState.predictInterval, TSFState.predictVar,
        TSFState.predictProba, hatt]

theorem predInt_gating_witness :
    (((mkTSFok [("erratic", wForeA)] wTransA none).fit [1] none
        none).1).predictInterval [3] none [] =
      PIOut.ok (((Forecaster.clone wForeA).fitRun [1] none
        none).predictInterval [3] none []) ∧
    (mkTSFok [] trivialTransformer (some fXyTrue)).predictInterval [3]
        none [] = PIOut.unsupportedOperation := by
  constructor
  · exact ((predInt_gating [("erratic", wForeA)] wTransA none
      (((mkTSFok [("erratic", wForeA)] wTransA none).fit [1] none none).1)
      ((Forecaster.clone wForeA).fitRun [1] none none)
      [3] none [] false true).2.2.1 rfl rfl).1
  · exact ((predInt_gating [] trivialTransformer (some fXyTrue)
      (mkTSFok [] trivialTransformer (some fXyTrue)) wForeA
      [3] none [] false true).2.2.2 rfl).1

/-- C8: construction fails with an assertion error when some value of the
forecasters mapping is not a valid forecaster, and completes whenever every
value is a valid forecaster, regardless of the other arguments. -/
theorem construction_validates (fs : List (String × Forecaster))
    (tropt : Option Transformer) (fb : Option Forecaster) :
    ((∃ p ∈ fs, p.2.isBaseForecaster = false) →
      mkTSF fs tropt fb = Except.error ConstructError.assertionError) ∧
    ((∀ p ∈ fs, p.2.isBaseForecaster = true) →
      mkTSF fs tropt fb = Except.ok
        (mkTSFok fs (tropt.getD defaultADICV) fb)) := by
  constructor
  · rintro ⟨p, hp, hbad⟩
    have hnot : ¬(fs.all (fun p => p.2.isBaseForecaster) = true) := by
      intro hall
      rw [List.all_eq_true] at hall
      have h2 := hall p hp
      rw [hbad] at h2
      cases h2
    unfold mkTSF
    rw [if_neg hnot]
  · intro hall
    unfold mkTSF
    rw [if_pos (List.all_eq_true.mpr hall)]

/-- A value that is not a valid forecaster. -/
def badFore : Forecaster :=
  { fid := 99, isBaseForecaster := false, tags := [],
    isFitted := false, fittedOn := none, updates := [] }

theorem construction_validates_witness :
    mkTSF [("x", badFore)] none none =
      Except.error ConstructError.assertionError ∧
    mkTSF [("erratic", wForeA)] none none =
      Except.ok (mkTSFok [("erratic", wForeA)] defaultADICV none) := by
  constructor
  · exact (construction_validates [("x", badFore)] none none).1
      ⟨("x", badFore), by simp, rfl⟩
  · exact (construction_validates [("erratic", wForeA)] none none).2
      (by
        intro p hp
        rcases List.mem_singleton.mp hp with rfl
        rfl)

theorem setProp_spec (s : TSFState) (new : List (String × Forecaster)) :
    s.setForecastersProp new =
      { s with
        forecasters := new.foldl
          (fun d p => if p.1 ≠ "fallback_forecaster" then dictSet d p.1 p.2
            else d) s.forecasters,
        fallback_forecaster := new.foldl
          (fun acc p => if p.1 ≠ "fallback_forecaster" then acc
            else some p.2) s.fallback_forecaster } := by
  induction new generalizing s with
  | nil => rfl
  | cons q rest ih =>
    simp only [TSFState.setForecastersProp, List.foldl_cons] at ih ⊢
    by_cases hq : q.1 = "fallback_forecaster"
    · simp only [hq, ne_eq, not_true_eq_false, if_false, ite_false]
      rw [ih]
    · simp only [ne_eq, hq, not_false_eq_true, if_true, ite_true]
      rw [ih]

theorem dictGet_foldl_condSet_reserved (new : List (String × Forecaster))
    (d : List (String × Forecaster)) :
    dictGet (new.foldl
      (fun d p => if p.1 ≠ "fallback_forecaster" then dictSet d p.1 p.2
        else d) d) "fallback_forecaster" =
      dictGet d "fallback_forecaster" := by
  induction new generalizing d with
  | nil => rfl
  | cons q rest ih =>
    simp only [List.foldl_cons]
    by_cases hq : q.1 = "fallback_forecaster"
    · rw [if_neg (not_not_intro hq)]
      exact ih d
    · rw [if_pos hq, ih, dictGet_dictSet_ne _ _ _ _ (fun h => hq h.symm)]

/-- C10: the _forecasters view lists the candidate (label, forecaster)
pairs followed by exactly one extra final entry labelled with the reserved
string "fallback_forecaster" holding the fallback (present even when the
fallback is None); the setter routes every entry with the reserved label to
the fallback slot and all other entries into the candidate mapping, so no
entry under the reserved label is ever stored as a candidate. -/
theorem forecasters_view_setter (s : TSFState)
    (new : List (String × Forecaster)) :
    s.forecastersProp.length = s.forecasters.length + 1 ∧
    s.forecastersProp.getLast? =
      some ("fallback_forecaster", s.fallback_forecaster) ∧
    s.forecastersProp.take s.forecasters.length =
      s.forecasters.map (fun p => (p.1, some p.2)) ∧
    (s.setForecastersProp new).forecasters =
      new.foldl
        (fun d p => if p.1 ≠ "fallback_forecaster" then dictSet d p.1 p.2
          else d) s.forecasters ∧
    (s.setForecastersProp new).fallback_forecaster =
      new.foldl
        (fun acc p => if p.1 ≠ "fallback_forecaster" then acc
          else some p.2) s.fallback_forecaster ∧
    dictGet (s.setForecastersProp new).forecasters "fallback_forecaster" =
      dictGet s.forecasters "fallback_forecaster" := by
  refine ⟨?_, ?_, ?_, ?_, ?_, ?_⟩
  · simp [TSFState.forecastersProp]
  · exact List.getLast?_concat _
  · exact List.take_left' (List.length_map _ _)
  · rw [setProp_spec]
  · rw [setProp_spec]
  · rw [setProp_spec]
    exact dictGet_foldl_condSet_reserved new s.forecasters
